import Mathlib

/-!
Shallow embedding of the ghrust Copilot-metrics flattening and delivery
pipeline, translated from the Rust sources:

* `src/services/datadog/models.rs`  — `MetricPoint`, `MetricSeries`, `standard_tags`
* `src/services/datadog/client.rs`  — `prepare_all_metrics`, the per-feature
  flatteners, `calculate_ide_chat_totals`, `merge_series`, `send_metrics`
* `src/processors/team.rs`          — `process_team_metrics` namespace, `process_all_teams`
* `src/handler.rs`                  — `process_metrics` orchestration

Numeric note: every metric value originates from an `i64` (or `u64`) counter
and is stored as `f64` via `as f64`, which is exact for magnitudes below
2^53; values are therefore embedded as exact integers (`Int`).

The GitHub metrics data structures live in `src/models/github.rs`, whose
field set is reproduced from its construction sites
(`services/github/tests.rs`, `services/github/test_helpers.rs`,
`handler.rs`) and its uses in `services/datadog/client.rs`.

Environment-variable reads (`MOCK_GITHUB_API`, `DATADOG_NAMESPACE_P7S1`,
`SKIP_ENTERPRISE_METRICS`) are passed as explicit parameters; the HTTP
transport is an explicit `submit` function, and dispatch returns the trace
of submitted chunks alongside the result.
-/

namespace Ghrust

/-- Embedding of `Language` breakdown entry (`models/github.rs`): per-language code
completions data; every counter besides `total_engaged_users` is optional. -/
structure Language where
  name : String
  total_engaged_users : Int
  total_code_suggestions : Option Int
  total_code_acceptances : Option Int
  total_code_lines_suggested : Option Int
  total_code_lines_accepted : Option Int
deriving DecidableEq

/-- Embedding of `Model` breakdown entry (`models/github.rs`). -/
structure Model where
  name : String
  is_custom_model : Bool
  custom_model_training_date : Option String
  total_engaged_users : Int
  languages : Option (List Language)
  total_chats : Option Int
  total_chat_insertion_events : Option Int
  total_chat_copy_events : Option Int
  total_pr_summaries_created : Option Int
deriving DecidableEq

/-- Embedding of `Editor` breakdown entry (`models/github.rs`): an editor optionally
contains nested per-model entries. -/
structure Editor where
  name : String
  total_engaged_users : Int
  models : Option (List Model)
deriving DecidableEq

/-- Embedding of `Repository` breakdown entry (`models/github.rs`): a repository carries a
(non-optional) list of per-model entries. -/
structure Repository where
  name : String
  total_engaged_users : Int
  models : List Model
deriving DecidableEq

/-- Embedding of `CopilotIdeCodeCompletions` feature block (`models/github.rs`). -/
structure CopilotIdeCodeCompletions where
  total_engaged_users : Int
  languages : Option (List Language)
  editors : Option (List Editor)
deriving DecidableEq

/-- Embedding of `CopilotIdeChat` feature block (`models/github.rs`). -/
structure CopilotIdeChat where
  total_engaged_users : Int
  editors : Option (List Editor)
deriving DecidableEq

/-- Embedding of `CopilotDotcomChat` feature block (`models/github.rs`). -/
structure CopilotDotcomChat where
  total_engaged_users : Int
  models : Option (List Model)
deriving DecidableEq

/-- Embedding of `CopilotDotcomPullRequests` feature block (`models/github.rs`). -/
structure CopilotDotcomPullRequests where
  total_engaged_users : Int
  repositories : Option (List Repository)
deriving DecidableEq

/-- Embedding of `CopilotMetrics` (`models/github.rs`): one dated snapshot with optional
top-level counts and four optional feature blocks. -/
structure CopilotMetrics where
  date : String
  total_active_users : Option Int
  total_engaged_users : Option Int
  copilot_ide_code_completions : Option CopilotIdeCodeCompletions
  copilot_ide_chat : Option CopilotIdeChat
  copilot_dotcom_chat : Option CopilotDotcomChat
  copilot_dotcom_pull_requests : Option CopilotDotcomPullRequests
deriving DecidableEq

/-- Embedding of `MetricPoint` (`models/datadog` models.rs): one time-series point.
The `f64` value is represented by its exact integer source. -/
structure MetricPoint where
  name : String
  value : Int
  timestamp : Int
  tags : List String
deriving DecidableEq

/-- Embedding of `MetricPoint::new` (models.rs line 47). -/
def MetricPoint.new (name : String) (value : Int) (timestamp : Int)
    (tags : List String) : MetricPoint :=
  { name := name, value := value, timestamp := timestamp, tags := tags }

/-- Embedding of `MetricSeries` (models.rs line 88): an ordered collection of points.
The Rust `to_json` step (a pointwise, order-preserving map of each point to
its JSON rendering) is left out; claims are settled on the points
themselves. -/
structure MetricSeries where
  points : List MetricPoint
deriving DecidableEq

/-- Embedding of `MetricSeries::new` (models.rs line 100). -/
def MetricSeries.new : MetricSeries := { points := [] }

/-- Embedding of `MetricSeries::add_point` (models.rs line 111): `Vec::push`, i.e. append
at the end. -/
def MetricSeries.add_point (s : MetricSeries) (point : MetricPoint) : MetricSeries :=
  { points := s.points ++ [point] }

/-- Embedding of `MetricSeries::add_optional_i64_point` (models.rs line 131): adds a point
only when the optional value is present. -/
def MetricSeries.add_optional_i64_point (s : MetricSeries) (name : String)
    (value : Option Int) (timestamp : Int) (tags : List String) : MetricSeries :=
  match value with
  | some val => s.add_point (MetricPoint.new name val timestamp tags)
  | none => s

/-- Embedding of `standard_tags` (models.rs line 176). -/
def standard_tags (date : String) : List String :=
  ["date:" ++ date, "source:github-copilot-metrics"]

/-- Body of the per-language loop of
`DatadogClient::prepare_ide_code_completions_metrics` (client.rs lines
324-365): one mandatory engaged-users point, then one optional point for
each of the four optional counters. -/
def languageStep (pfx : String) (timestamp : Int) (base_tags : List String)
    (series : MetricSeries) (language : Language) : MetricSeries :=
  let lang_tags := base_tags ++ ["language:" ++ language.name]
  let series := series.add_point (MetricPoint.new
    (pfx ++ ".languages.total_engaged_users") language.total_engaged_users timestamp lang_tags)
  let series := series.add_optional_i64_point
    (pfx ++ ".languages.total_code_suggestions") language.total_code_suggestions timestamp lang_tags
  let series := series.add_optional_i64_point
    (pfx ++ ".languages.total_code_acceptances") language.total_code_acceptances timestamp lang_tags
  let series := series.add_optional_i64_point
    (pfx ++ ".languages.total_code_lines_suggested") language.total_code_lines_suggested timestamp lang_tags
  series.add_optional_i64_point
    (pfx ++ ".languages.total_code_lines_accepted") language.total_code_lines_accepted timestamp lang_tags

/-- Embedding of `DatadogClient::prepare_ide_code_completions_metrics` (client.rs lines
303-385). -/
def prepare_ide_code_completions_metrics (completions : CopilotIdeCodeCompletions)
    (ns : String) (date : String) (timestamp : Int) : MetricSeries :=
  let pfx := ns ++ ".ide.code_completions"
  let base_tags := standard_tags date
  let series := MetricSeries.new.add_point (MetricPoint.new
    (pfx ++ ".total_engaged_users") completions.total_engaged_users timestamp base_tags)
  let series := match completions.languages with
    | some languages => languages.foldl (languageStep pfx timestamp base_tags) series
    | none => series
  match completions.editors with
  | some editors =>
      editors.foldl (fun series editor =>
        let editor_tags := base_tags ++ ["editor:" ++ editor.name]
        series.add_point (MetricPoint.new
          (pfx ++ ".editors.total_engaged_users") editor.total_engaged_users timestamp editor_tags))
        series
  | none => series

/-- Body of the per-model loop inside the per-editor loop of
`DatadogClient::prepare_ide_chat_metrics` (client.rs lines 449-475). -/
def chatModelStep (pfx : String) (timestamp : Int) (editor_tags : List String)
    (series : MetricSeries) (model : Model) : MetricSeries :=
  let is_custom := if model.is_custom_model then ("true") else ("false")
  let model_tags := editor_tags ++ ["model:" ++ model.name, "is_custom_model:" ++ is_custom]
  let series := series.add_point (MetricPoint.new
    (pfx ++ ".editors.models.total_engaged_users") model.total_engaged_users timestamp model_tags)
  series.add_optional_i64_point
    (pfx ++ ".editors.models.total_pr_summaries_created") model.total_pr_summaries_created timestamp model_tags

/-- Body of the per-editor loop of `DatadogClient::prepare_ide_chat_metrics`
(client.rs lines 435-477). -/
def chatEditorStep (pfx : String) (timestamp : Int) (base_tags : List String)
    (series : MetricSeries) (editor : Editor) : MetricSeries :=
  let editor_tags := base_tags ++ ["editor:" ++ editor.name]
  let series := series.add_point (MetricPoint.new
    (pfx ++ ".editors.total_engaged_users") editor.total_engaged_users timestamp editor_tags)
  match editor.models with
  | some models => models.foldl (chatModelStep pfx timestamp editor_tags) series
  | none => series

/-- Body of the per-model accumulation of
`DatadogClient::calculate_ide_chat_totals` (client.rs lines 530-539): each
present counter is added to the running totals, an absent counter adds
nothing. -/
def chatTotalsModelStep (acc : Int × Int × Int) (model : Model) : Int × Int × Int :=
  let total_chats := match model.total_chats with
    | some chats => acc.1 + chats
    | none => acc.1
  let total_copies := match model.total_chat_copy_events with
    | some copies => acc.2.1 + copies
    | none => acc.2.1
  let total_insertions := match model.total_chat_insertion_events with
    | some insertions => acc.2.2 + insertions
    | none => acc.2.2
  (total_chats, total_copies, total_insertions)

/-- Body of the per-editor accumulation of
`DatadogClient::calculate_ide_chat_totals` (client.rs lines 528-541): when
the editor has models, fold the per-model step over them; otherwise the
totals are unchanged. -/
def chatTotalsEditorStep (acc : Int × Int × Int) (editor : Editor) : Int × Int × Int :=
  match editor.models with
  | some models => models.foldl chatTotalsModelStep acc
  | none => acc

/-- Embedding of `DatadogClient::calculate_ide_chat_totals` (client.rs lines 522-546):
sums chat sessions, copy events and insertion events across every editor
and every model therein, starting from `(0, 0, 0)`. -/
def calculate_ide_chat_totals (ide_chat : CopilotIdeChat) : Int × Int × Int :=
  match ide_chat.editors with
  | some editors => editors.foldl chatTotalsEditorStep (0, 0, 0)
  | none => (0, 0, 0)

/-- Embedding of `DatadogClient::prepare_ide_chat_metrics` (client.rs lines 410-508).
The `DATADOG_NAMESPACE_P7S1` environment variable read (line 481) is passed
explicitly as `p7s1`: when present, three aggregate rollup points are
appended after the per-editor points. -/
def prepare_ide_chat_metrics (p7s1 : Option String) (ide_chat : CopilotIdeChat)
    (ns : String) (date : String) (timestamp : Int) : MetricSeries :=
  let pfx := ns ++ ".ide.chat"
  let base_tags := standard_tags date
  let series := MetricSeries.new.add_point (MetricPoint.new
    (pfx ++ ".total_engaged_users") ide_chat.total_engaged_users timestamp base_tags)
  let totals := calculate_ide_chat_totals ide_chat
  let series := match ide_chat.editors with
    | some editors => editors.foldl (chatEditorStep pfx timestamp base_tags) series
    | none => series
  match p7s1 with
  | some p7s1_namespace =>
      let series := series.add_point (MetricPoint.new
        (p7s1_namespace ++ ".copilot_ide_chat.total_chats") totals.1 timestamp base_tags)
      let series := series.add_point (MetricPoint.new
        (p7s1_namespace ++ ".copilot_ide_chat.total_chat_copy_events") totals.2.1 timestamp base_tags)
      series.add_point (MetricPoint.new
        (p7s1_namespace ++ ".copilot_ide_chat.total_chat_insertion_events") totals.2.2 timestamp base_tags)
  | none => series

/-- Body of the per-model loop of `DatadogClient::prepare_dotcom_chat_metrics`
(client.rs lines 586-611). -/
def dotcomChatModelStep (pfx : String) (timestamp : Int) (base_tags : List String)
    (series : MetricSeries) (model : Model) : MetricSeries :=
  let is_custom := if model.is_custom_model then ("true") else ("false")
  let model_tags := base_tags ++ ["model:" ++ model.name, "is_custom_model:" ++ is_custom]
  let series := series.add_point (MetricPoint.new
    (pfx ++ ".models.total_engaged_users") model.total_engaged_users timestamp model_tags)
  series.add_optional_i64_point
    (pfx ++ ".models.total_chats") model.total_chats timestamp model_tags

/-- Embedding of `DatadogClient::prepare_dotcom_chat_metrics` (client.rs lines 565-615). -/
def prepare_dotcom_chat_metrics (chat : CopilotDotcomChat)
    (ns : String) (date : String) (timestamp : Int) : MetricSeries :=
  let pfx := ns ++ ".dotcom.chat"
  let base_tags := standard_tags date
  let series := MetricSeries.new.add_point (MetricPoint.new
    (pfx ++ ".total_engaged_users") chat.total_engaged_users timestamp base_tags)
  match chat.models with
  | some models => models.foldl (dotcomChatModelStep pfx timestamp base_tags) series
  | none => series

/-- Body of the per-model loop inside the per-repository loop of
`DatadogClient::prepare_dotcom_pr_metrics` (client.rs lines 668-693). -/
def prModelStep (pfx : String) (timestamp : Int) (repo_tags : List String)
    (series : MetricSeries) (model : Model) : MetricSeries :=
  let is_custom := if model.is_custom_model then ("true") else ("false")
  let model_tags := repo_tags ++ ["model:" ++ model.name, "is_custom_model:" ++ is_custom]
  let series := series.add_point (MetricPoint.new
    (pfx ++ ".repositories.models.total_engaged_users") model.total_engaged_users timestamp model_tags)
  series.add_optional_i64_point
    (pfx ++ ".repositories.models.total_pr_summaries_created") model.total_pr_summaries_created timestamp model_tags

/-- Embedding of `DatadogClient::prepare_dotcom_pr_metrics` (client.rs lines 635-698). -/
def prepare_dotcom_pr_metrics (pr : CopilotDotcomPullRequests)
    (ns : String) (date : String) (timestamp : Int) : MetricSeries :=
  let pfx := ns ++ ".dotcom.pull_requests"
  let base_tags := standard_tags date
  let series := MetricSeries.new.add_point (MetricPoint.new
    (pfx ++ ".total_engaged_users") pr.total_engaged_users timestamp base_tags)
  match pr.repositories with
  | some repositories =>
      repositories.foldl (fun series repo =>
        let repo_tags := base_tags ++ ["repository:" ++ repo.name]
        let series := series.add_point (MetricPoint.new
          (pfx ++ ".repositories.total_engaged_users") repo.total_engaged_users timestamp repo_tags)
        repo.models.foldl (prModelStep pfx timestamp repo_tags) series)
        series
  | none => series

/-- Embedding of `DatadogClient::merge_series` (client.rs lines 238-242): moves every
point of `source` (in order) into `target` via `std::mem::take`, leaving
`source` empty; the returned pair is (new target, new source). -/
def merge_series (target source : MetricSeries) : MetricSeries × MetricSeries :=
  let taken := source.points
  (taken.foldl MetricSeries.add_point target, { points := [] })

/-- Body of the per-snapshot loop of `DatadogClient::prepare_all_metrics`
(client.rs lines 176-223): the two core points, then each present feature
block's sub-series merged in. -/
def prepareMetricStep (p7s1 : Option String) (ns : String) (timestamp : Int)
    (all_series : MetricSeries) (metric : CopilotMetrics) : MetricSeries :=
  let date := metric.date
  let base_tags := standard_tags date
  let all_series := all_series.add_point (MetricPoint.new
    (ns ++ ".total_active_users") (metric.total_active_users.getD 0) timestamp base_tags)
  let all_series := all_series.add_point (MetricPoint.new
    (ns ++ ".total_engaged_users") (metric.total_engaged_users.getD 0) timestamp base_tags)
  let all_series := match metric.copilot_ide_code_completions with
    | some completions =>
        (merge_series all_series (prepare_ide_code_completions_metrics completions ns date timestamp)).1
    | none => all_series
  let all_series := match metric.copilot_ide_chat with
    | some ide_chat =>
        (merge_series all_series (prepare_ide_chat_metrics p7s1 ide_chat ns date timestamp)).1
    | none => all_series
  let all_series := match metric.copilot_dotcom_chat with
    | some dotcom_chat =>
        (merge_series all_series (prepare_dotcom_chat_metrics dotcom_chat ns date timestamp)).1
    | none => all_series
  match metric.copilot_dotcom_pull_requests with
  | some dotcom_pr =>
      (merge_series all_series (prepare_dotcom_pr_metrics dotcom_pr ns date timestamp)).1
  | none => all_series

/-- Embedding of `DatadogClient::prepare_all_metrics` (client.rs lines 168-226), up to the
final `to_json` (a pointwise, order-preserving rendering of each point,
omitted here): the per-scope series accumulated over all snapshots. -/
def prepare_all_metrics (p7s1 : Option String) (metrics : List CopilotMetrics)
    (ns : String) (timestamp : Int) : MetricSeries :=
  metrics.foldl (prepareMetricStep p7s1 ns timestamp) MetricSeries.new

/-- Fuel-indexed worker for `chunksOf`; with fuel at least the list length
it yields the contiguous chunks of size `n` (last chunk possibly shorter),
like Rust `slice::chunks(n)`. Structural in the fuel so that closed
instances compute by kernel reduction. -/
def chunksOfFuel (n : Nat) : Nat → List α → List (List α)
  | 0, _ => []
  | _ + 1, [] => []
  | fuel + 1, l => l.take n :: chunksOfFuel n fuel (l.drop n)

/-- Embedding of `all_series.chunks(100)` in `DatadogClient::send_metrics` (client.rs
line 99), generalized over the chunk size: contiguous chunks in original
order, the last one possibly shorter. -/
def chunksOf (n : Nat) (l : List α) : List (List α) :=
  chunksOfFuel n l.length l

/-- The chunk loop of `DatadogClient::send_metrics` (client.rs lines
99-102): submits the chunks sequentially, stopping at the first failing
submission and propagating its error (the `?` operator). Returns the trace
of chunks actually handed to `submit` (in call order, the failing chunk
included) together with the loop's result. -/
def sendAll (submit : List α → Except ε Unit) :
    List (List α) → List (List α) × Except ε Unit
  | [] => ([], Except.ok ())
  | chunk :: rest =>
    match submit chunk with
    | Except.error e => ([chunk], Except.error e)
    | Except.ok _ =>
        let r := sendAll submit rest
        (chunk :: r.1, r.2)

/-- Embedding of `DatadogClient::send_metrics` (client.rs lines 81-108). The
`MOCK_GITHUB_API` environment check (line 89) is the explicit
`mock_github_api` flag; the HTTP transport (`send_metrics_chunk`) is the
explicit `submit` function. Returns, in order: the flattened series
(`none` when the test-mode early return fires before `prepare_all_metrics`
runs), the trace of submitted chunks, and the result. -/
def send_metrics (mock_github_api : Bool) (p7s1 : Option String)
    (submit : List MetricPoint → Except String Unit)
    (metrics : List CopilotMetrics) (ns : String) (timestamp : Int) :
    Option (List MetricPoint) × List (List MetricPoint) × Except String Unit :=
  if mock_github_api then (none, [], Except.ok ())
  else
    let all_series := prepare_all_metrics p7s1 metrics ns timestamp
    let r := sendAll submit (chunksOf 100 all_series.points)
    (some all_series.points, r.1, r.2)

/-- Namespace resolution: the root namespace is used unchanged for the
enterprise scope (`processors/enterprise.rs` line 92, `handler.rs` line
245), and `format!("\x7b\x7d.team.\x7b\x7d", datadog_namespace, team_slug)`
for a team scope (`processors/team.rs` line 84, `handler.rs` line 155). -/
def resolveNamespace (datadog_namespace : String) (team_slug : Option String) : String :=
  match team_slug with
  | none => datadog_namespace
  | some slug => datadog_namespace ++ ".team." ++ slug

/-- The loop of `process_all_teams` (`processors/team.rs` lines 129-145):
every slug is attempted in order; a success increments `success_count`, a
failure is recorded in `error_count` and the loop continues. -/
def processAllTeamsGo (process_team : String → Except String Unit) :
    List String → Nat → Nat → Nat × Nat
  | [], success_count, error_count => (success_count, error_count)
  | team_slug :: rest, success_count, error_count =>
    match process_team team_slug with
    | Except.ok _ => processAllTeamsGo process_team rest (success_count + 1) error_count
    | Except.error _ => processAllTeamsGo process_team rest success_count (error_count + 1)

/-- Embedding of `process_all_teams` (`processors/team.rs` lines 117-157), with one
team's whole fetch/flatten/dispatch cycle (`process_team_metrics`)
abstracted as `process_team`. After attempting every slug it fails with
`anyhow!("Failed to process \x7b\x7d teams", error_count)` when any team
failed, and succeeds otherwise. -/
def process_all_teams (process_team : String → Except String Unit)
    (team_slugs : List String) : Except String Unit :=
  let counts := processAllTeamsGo process_team team_slugs 0 0
  if counts.2 > 0 then
    Except.error ("Failed to process " ++ toString counts.2 ++ " teams")
  else
    Except.ok ()

/-- Whether an `Except` result is a success. -/
def exceptIsOk (r : Except String Unit) : Bool :=
  match r with
  | Except.ok _ => true
  | Except.error _ => false

/-- Environment of `handler.rs::process_metrics` (lines 183-287): the
`MOCK_GITHUB_API` and `SKIP_ENTERPRISE_METRICS` environment flags, the
enterprise fetch (`get_github_metrics`), the per-snapshot Datadog dispatch
(`send_metrics` at line 245), and the result of the team phase
(`process_team_metrics`, whose error is logged and swallowed at lines
264-275). -/
structure OrchestratorEnv where
  is_test_mode : Bool
  skip_enterprise : Bool
  fetch_enterprise : Except String (List CopilotMetrics)
  dispatch : CopilotMetrics → Except String Unit
  team_phase : Except String Unit

/-- The fixed injected snapshot built by `handler.rs::process_metrics` in
test mode (lines 210-218). -/
def mockMetric (date : String) : CopilotMetrics :=
  { date := date
    total_active_users := some 100
    total_engaged_users := some 80
    copilot_ide_code_completions := none
    copilot_ide_chat := none
    copilot_dotcom_chat := none
    copilot_dotcom_pull_requests := none }

/-- The per-snapshot dispatch loop of `handler.rs::process_metrics` (lines
238-253): outside test mode each snapshot is sent, and a dispatch error is
returned immediately. -/
def enterpriseSendLoop (o : OrchestratorEnv) : List CopilotMetrics → Except String Unit
  | [] => Except.ok ()
  | metric :: rest =>
    if o.is_test_mode then enterpriseSendLoop o rest
    else
      match o.dispatch metric with
      | Except.error e => Except.error e
      | Except.ok _ => enterpriseSendLoop o rest

/-- Embedding of `handler.rs::process_metrics` (lines 183-287). The first component
records whether the team-metrics phase was reached; the second is the
function's result. A root-scope (enterprise) fetch or dispatch error is
returned immediately (lines 229 and 248), before the team phase; after a
successful (or skipped) enterprise phase the team phase runs and its error
is swallowed, so the function then returns success regardless of
`o.team_phase`. -/
def process_metrics (o : OrchestratorEnv) (today : String) : Bool × Except String Unit :=
  if o.skip_enterprise then
    (true, Except.ok ())
  else
    match (if o.is_test_mode then Except.ok [mockMetric today] else o.fetch_enterprise) with
    | Except.error e => (false, Except.error e)
    | Except.ok metrics =>
      match enterpriseSendLoop o metrics with
      | Except.error e => (false, Except.error e)
      | Except.ok _ => (true, Except.ok ())

/-! ### Helper lemmas -/

instance {ε α : Type} [DecidableEq ε] [DecidableEq α] : DecidableEq (Except ε α) := fun x y =>
  match x, y with
  | Except.ok a, Except.ok b =>
      if h : a = b then isTrue (by rw [h]) else isFalse (by simp [h])
  | Except.error a, Except.error b =>
      if h : a = b then isTrue (by rw [h]) else isFalse (by simp [h])
  | Except.ok _, Except.error _ => isFalse (by simp)
  | Except.error _, Except.ok _ => isFalse (by simp)

theorem foldl_add_point (pts : List MetricPoint) (t : MetricSeries) :
    pts.foldl MetricSeries.add_point t = { points := t.points ++ pts } := by
  induction pts generalizing t with
  | nil => simp
  | cons p ps ih =>
      simp [List.foldl_cons, ih, MetricSeries.add_point]

/-! ### Claim theorems -/

/-- C10: merging a source series into a target series leaves the target's
pre-existing points unchanged and in place, appends all of the source's
points after them in their original order, and leaves the source series
empty afterward. -/
theorem merge_series_moves_all_points (target source : MetricSeries) :
    merge_series target source =
      ({ points := target.points ++ source.points }, { points := [] }) := by
  simp [merge_series, foldl_add_point]

/-- C1: for every snapshot whose feature blocks are all absent, flattening
under namespace `ns` yields exactly the two points
`ns ++ ".total_active_users"` and `ns ++ ".total_engaged_users"`, whose
values are the snapshot's counts (0 when absent), each tagged exactly
`["date:" ++ date, "source:github-copilot-metrics"]`. -/
theorem flatten_no_blocks_two_points (p7s1 : Option String) (m : CopilotMetrics)
    (ns : String) (ts : Int)
    (h1 : m.copilot_ide_code_completions = none)
    (h2 : m.copilot_ide_chat = none)
    (h3 : m.copilot_dotcom_chat = none)
    (h4 : m.copilot_dotcom_pull_requests = none) :
    prepare_all_metrics p7s1 [m] ns ts =
      { points :=
          [{ name := ns ++ ".total_active_users", value := m.total_active_users.getD 0,
             timestamp := ts, tags := ["date:" ++ m.date, "source:github-copilot-metrics"] },
           { name := ns ++ ".total_engaged_users", value := m.total_engaged_users.getD 0,
             timestamp := ts, tags := ["date:" ++ m.date, "source:github-copilot-metrics"] }] } := by
  simp [prepare_all_metrics, prepareMetricStep, h1, h2, h3, h4,
    MetricSeries.new, MetricSeries.add_point, MetricPoint.new, standard_tags]

/-- Scenario A snapshot for C1: date 2024-01-01, 100 active users, 80
engaged users, no feature blocks. -/
def scenarioASnapshot : CopilotMetrics :=
  { date := "2024-01-01"
    total_active_users := some 100
    total_engaged_users := some 80
    copilot_ide_code_completions := none
    copilot_ide_chat := none
    copilot_dotcom_chat := none
    copilot_dotcom_pull_requests := none }

/-- Witness for C1 (Scenario A): the snapshot
`{date: 2024-01-01, total_active_users: 100, total_engaged_users: 80}` under
namespace `acme.copilot` flattens to exactly the two expected points. -/
theorem flatten_no_blocks_two_points_witness :
    prepare_all_metrics none [scenarioASnapshot] "acme.copilot" 0 =
      { points :=
          [{ name := "acme.copilot.total_active_users", value := 100,
             timestamp := 0, tags := ["date:2024-01-01", "source:github-copilot-metrics"] },
           { name := "acme.copilot.total_engaged_users", value := 80,
             timestamp := 0, tags := ["date:2024-01-01", "source:github-copilot-metrics"] }] } :=
  (flatten_no_blocks_two_points none scenarioASnapshot ("acme.copilot") 0
    rfl rfl rfl rfl).trans (by decide)

/-- C2: for every language breakdown entry of the code-completions feature
block, the per-entry flattening step emits exactly 1 + (number of present
optional counters) points: one engaged-users point always, plus one point
per present optional counter; an absent optional counter contributes no
point. -/
theorem language_entry_point_count (pfx : String) (ts : Int) (base_tags : List String)
    (series : MetricSeries) (language : Language) :
    (languageStep pfx ts base_tags series language).points.length =
      series.points.length + 1 +
        ((if language.total_code_suggestions.isSome then 1 else 0) +
         (if language.total_code_acceptances.isSome then 1 else 0) +
         (if language.total_code_lines_suggested.isSome then 1 else 0) +
         (if language.total_code_lines_accepted.isSome then 1 else 0)) := by
  rcases language with ⟨lang_name, engaged, s1, s2, s3, s4⟩
  cases s1 <;> cases s2 <;> cases s3 <;> cases s4 <;>
    simp [languageStep, MetricSeries.add_point, MetricSeries.add_optional_i64_point,
      MetricPoint.new]

theorem chunksOfFuel_flatten {α : Type} (n : Nat) (hn : 0 < n) :
    ∀ (fuel : Nat) (l : List α), l.length ≤ fuel →
      (chunksOfFuel n fuel l).flatten = l := by
  intro fuel
  induction fuel with
  | zero =>
      intro l hl
      have hnil : l = [] := List.eq_nil_of_length_eq_zero (Nat.le_zero.mp hl)
      subst hnil
      simp [chunksOfFuel]
  | succ fuel ih =>
      intro l hl
      cases l with
      | nil => simp [chunksOfFuel]
      | cons x xs =>
          have hdrop : ((x :: xs).drop n).length ≤ fuel := by
            simp only [List.length_drop, List.length_cons]
            simp only [List.length_cons] at hl
            omega
          simp only [chunksOfFuel, List.flatten_cons, ih _ hdrop]
          exact List.take_append_drop n (x :: xs)

set_option maxRecDepth 8192 in
/-- C3: the dispatcher's chunking (`all_series.chunks(100)` in
`send_metrics`) is a lossless partition: concatenating the chunks in order
reproduces the original series exactly; and a series of 250 points is cut
into exactly 3 chunks of sizes 100, 100, 50, in original order. -/
theorem chunks_lossless_partition :
    (∀ l : List MetricPoint, (chunksOf 100 l).flatten = l) ∧
    (chunksOf 100 (List.range 250)).map List.length = [100, 100, 50] := by
  constructor
  · intro l
    exact chunksOfFuel_flatten 100 (by omega) l.length l (Nat.le_refl _)
  · decide

theorem sendAll_ok_prefix_of_failure {α ε : Type} (submit : List α → Except ε Unit)
    (ck : List α) (cs₂ : List (List α)) (e : ε) (hfail : submit ck = Except.error e) :
    ∀ cs₁ : List (List α), (∀ c ∈ cs₁, submit c = Except.ok ()) →
      sendAll submit (cs₁ ++ ck :: cs₂) = (cs₁ ++ [ck], Except.error e) := by
  intro cs₁
  induction cs₁ with
  | nil =>
      intro _
      simp [sendAll, hfail]
  | cons c cs ih =>
      intro hok
      have hc : submit c = Except.ok () := hok c (by simp)
      have hcs : ∀ x ∈ cs, submit x = Except.ok () := by
        intro x hx
        exact hok x (by simp [hx])
      simp [sendAll, hc, ih hcs]

/-- C4: for every series, if the submission of chunk k (the chunk `ck`,
preceded by the successfully submitted chunks `cs₁`) fails, then the
dispatcher's trace of submitted chunks is exactly `cs₁ ++ [ck]` — the
chunks before k, each handed to the transport exactly once in order and
never rolled back, plus the single (unretried) failing submission; no chunk
after k is submitted, and the transport error is surfaced as the result. -/
theorem dispatch_aborts_at_failing_chunk {α ε : Type}
    (submit : List α → Except ε Unit) (l : List α)
    (cs₁ : List (List α)) (ck : List α) (cs₂ : List (List α)) (e : ε)
    (hsplit : chunksOf 100 l = cs₁ ++ ck :: cs₂)
    (hok : ∀ c ∈ cs₁, submit c = Except.ok ())
    (hfail : submit ck = Except.error e) :
    sendAll submit (chunksOf 100 l) = (cs₁ ++ [ck], Except.error e) := by
  rw [hsplit]
  exact sendAll_ok_prefix_of_failure submit ck cs₂ e hfail cs₁ hok

set_option maxRecDepth 8192 in
/-- Witness for C4: a 250-point series whose second chunk is refused by the
transport: the first chunk is delivered, the failing chunk is submitted
once, the third chunk is never submitted, and the error is surfaced. -/
theorem dispatch_aborts_at_failing_chunk_witness :
    sendAll (fun c => if 100 ∈ c then Except.error ("refused") else Except.ok ())
        (chunksOf 100 (List.range 250)) =
      ([List.range 100, List.range' 100 100], Except.error ("refused")) := by
  have h := dispatch_aborts_at_failing_chunk
    (fun c => if 100 ∈ c then Except.error ("refused") else Except.ok ())
    (List.range 250) [List.range 100] (List.range' 100 100) [List.range' 200 50] "refused"
    (by decide) (by decide) (by decide)
  simpa using h

/-- C5: namespace resolution returns the root namespace unchanged when no
team slug is given, returns `root ++ ".team." ++ slug` when one is given
(the fixed sub-group qualifier being the literal `team`), and is injective
over team slugs under a fixed root. -/
theorem resolveNamespace_contract (root a b : String) (hne : a ≠ b) :
    resolveNamespace root none = root ∧
    resolveNamespace root (some a) = root ++ ".team." ++ a ∧
    resolveNamespace root (some a) ≠ resolveNamespace root (some b) := by
  refine ⟨rfl, rfl, ?_⟩
  intro h
  apply hne
  have hd : (root ++ ".team." ++ a).data = (root ++ ".team." ++ b).data :=
    congrArg String.data h
  simp only [String.data_append, List.append_assoc] at hd
  exact String.ext (List.append_cancel_left (List.append_cancel_left hd))

/-- Witness for C5: under root `github.copilot`, no slug resolves to the
root itself, slug `alpha` resolves to `github.copilot.team.alpha`, and the
distinct slugs `alpha` and `beta` resolve to distinct namespaces. -/
theorem resolveNamespace_contract_witness :
    resolveNamespace ("github.copilot") none = "github.copilot" ∧
    resolveNamespace ("github.copilot") (some ("alpha")) = "github.copilot" ++ ".team." ++ "alpha" ∧
    resolveNamespace ("github.copilot") (some ("alpha")) ≠
      resolveNamespace ("github.copilot") (some ("beta")) :=
  resolveNamespace_contract ("github.copilot") ("alpha") ("beta") (by decide)

theorem processAllTeamsGo_counts (process_team : String → Except String Unit) :
    ∀ (team_slugs : List String) (sc ec : Nat),
      processAllTeamsGo process_team team_slugs sc ec =
        (sc + team_slugs.countP (fun s => exceptIsOk (process_team s)),
         ec + team_slugs.countP (fun s => !exceptIsOk (process_team s))) := by
  intro team_slugs
  induction team_slugs with
  | nil => intro sc ec; simp [processAllTeamsGo]
  | cons slug rest ih =>
      intro sc ec
      cases h : process_team slug with
      | ok u =>
          cases u
          simp only [processAllTeamsGo, h, ih, List.countP_cons, exceptIsOk]
          simp
          omega
      | error msg =>
          simp only [processAllTeamsGo, h, ih, List.countP_cons, exceptIsOk]
          simp
          omega

/-- C6: the multi-team run attempts every team slug (each slug contributes
to the success/failure counts regardless of earlier failures), succeeds if
and only if every attempted team succeeded, and otherwise returns the
single aggregate error naming the number of failed teams. -/
theorem process_all_teams_aggregate (process_team : String → Except String Unit)
    (team_slugs : List String) :
    (process_all_teams process_team team_slugs =
      (if team_slugs.countP (fun s => !exceptIsOk (process_team s)) = 0 then Except.ok ()
       else Except.error ("Failed to process " ++
         toString (team_slugs.countP (fun s => !exceptIsOk (process_team s))) ++ " teams"))) ∧
    (process_all_teams process_team team_slugs = Except.ok () ↔
      ∀ s ∈ team_slugs, exceptIsOk (process_team s) = true) := by
  have heq : process_all_teams process_team team_slugs =
      (if team_slugs.countP (fun s => !exceptIsOk (process_team s)) = 0 then Except.ok ()
       else Except.error ("Failed to process " ++
         toString (team_slugs.countP (fun s => !exceptIsOk (process_team s))) ++ " teams")) := by
    unfold process_all_teams
    rw [processAllTeamsGo_counts]
    rcases h : team_slugs.countP (fun s => !exceptIsOk (process_team s)) with _ | k <;> simp [h]
  refine ⟨heq, ?_⟩
  rw [heq]
  rcases h : team_slugs.countP (fun s => !exceptIsOk (process_team s)) with _ | k
  · rw [List.countP_eq_zero] at h
    simp only [if_pos rfl]
    constructor
    · intro _ s hs
      have := h s hs
      simpa using this
    · intro _; rfl
  · simp only [if_neg (by omega : ¬ (k + 1 = 0))]
    constructor
    · intro hcontra; cases hcontra
    · intro hall
      have : team_slugs.countP (fun s => !exceptIsOk (process_team s)) = 0 := by
        rw [List.countP_eq_zero]
        intro s hs
        simp [hall s hs]
      omega

/-- A concrete orchestrator environment for C7: the enterprise (root scope)
fetch fails, everything else would succeed. -/
def rootFailEnv : OrchestratorEnv :=
  { is_test_mode := false
    skip_enterprise := false
    fetch_enterprise := Except.error ("root fetch failed")
    dispatch := fun _ => Except.ok ()
    team_phase := Except.ok () }

/-- C7 counterexample: in `handler.rs::process_metrics`, a root-scope fetch
failure is surfaced to the caller, but the team (sub-group) phase is NOT
reached — `process_metrics` returns at the fetch error, so the claim's
"still proceeds to process the sub-group phase" is false at this input. -/
theorem process_metrics_root_failure_counterexample :
    (process_metrics rootFailEnv ("2024-01-01")).2 = Except.error ("root fetch failed") ∧
    ¬ (process_metrics rootFailEnv ("2024-01-01")).1 = true := by
  constructor
  · rfl
  · decide

/-- C7 amended: when the root-scope phase fails — whether the enterprise
fetch returns an error, or the fetch succeeds and the per-snapshot dispatch
loop (`enterpriseSendLoop`, handler.rs lines 238-253) returns an error —
`process_metrics` (with test mode off and the enterprise phase enabled)
surfaces that error to its caller and does NOT proceed to the sub-group
phase: the root failure aborts the whole call. (Flattening itself is
infallible in the code, so fetch and dispatch are the only root failure
modes.) -/
theorem process_metrics_root_failure_aborts (o : OrchestratorEnv) (today : String) (e : String)
    (hskip : o.skip_enterprise = false)
    (htest : o.is_test_mode = false)
    (hroot : o.fetch_enterprise = Except.error e ∨
      ∃ metrics, o.fetch_enterprise = Except.ok metrics ∧
        enterpriseSendLoop o metrics = Except.error e) :
    process_metrics o today = (false, Except.error e) := by
  rcases hroot with hfetch | ⟨metrics, hfetch, hsend⟩
  · simp [process_metrics, hskip, htest, hfetch]
  · simp [process_metrics, hskip, htest, hfetch, hsend]

/-- A concrete orchestrator environment whose root-scope fetch succeeds but
whose root-scope dispatch fails on the fetched snapshot. -/
def rootDispatchFailEnv : OrchestratorEnv :=
  { is_test_mode := false
    skip_enterprise := false
    fetch_enterprise := Except.ok [mockMetric ("2024-01-01")]
    dispatch := fun _ => Except.error ("dispatch refused")
    team_phase := Except.ok () }

/-- Witness for the amended C7, exercising both root failure modes: the
fetch-error environment and the dispatch-error environment each abort
before the sub-group phase with the error surfaced. -/
theorem process_metrics_root_failure_aborts_witness :
    process_metrics rootFailEnv ("2024-01-01") = (false, Except.error ("root fetch failed")) ∧
    process_metrics rootDispatchFailEnv ("2024-01-01") =
      (false, Except.error ("dispatch refused")) :=
  ⟨process_metrics_root_failure_aborts rootFailEnv ("2024-01-01") ("root fetch failed")
      rfl rfl (Or.inl rfl),
   process_metrics_root_failure_aborts rootDispatchFailEnv ("2024-01-01") ("dispatch refused")
      rfl rfl (Or.inr ⟨[mockMetric ("2024-01-01")], rfl, rfl⟩)⟩

/-- A transport that would accept every chunk (used to show that test mode
does not even consult the transport). -/
def alwaysOkSubmit : List MetricPoint → Except String Unit :=
  fun _ => Except.ok ()

/-- C8 counterexample: with the verification switch (`MOCK_GITHUB_API`) on,
`send_metrics` returns success before `prepare_all_metrics` runs: no series
is prepared and no chunk is submitted — yet flattening this snapshot would
have produced points, so "still executes the full flattening path
end-to-end" is false at this input (only the "no outbound submission" half
holds). -/
theorem send_metrics_test_mode_counterexample :
    send_metrics true none alwaysOkSubmit [scenarioASnapshot] ("acme.copilot") 0 =
      (none, [], Except.ok ()) ∧
    (prepare_all_metrics none [scenarioASnapshot] ("acme.copilot") 0).points ≠ [] := by
  constructor
  · rfl
  · decide

/-- C8 amended: when the verification switch is enabled, `send_metrics`
returns success immediately: no outbound submission is made, and the
flattening path is bypassed as well (no series is prepared at all). -/
theorem send_metrics_test_mode_skips_flattening_and_dispatch (p7s1 : Option String)
    (submit : List MetricPoint → Except String Unit)
    (metrics : List CopilotMetrics) (ns : String) (ts : Int) :
    send_metrics true p7s1 submit metrics ns ts = (none, [], Except.ok ()) := rfl

/-- Spec-side sum for C9, following the spec's words: "the sum, across
every editor and every model therein" of a per-model counter, "defaulting
each missing per-model value to zero before summing". Stated independently
of `calculate_ide_chat_totals` so the code can be compared against it. -/
def specChatSum (counter : Model → Option Int) (ide_chat : CopilotIdeChat) : Int :=
  ((ide_chat.editors.getD []).map (fun editor =>
    ((editor.models.getD []).map (fun model => (counter model).getD 0)).sum)).sum

theorem chatTotalsModelStep_eq (acc : Int × Int × Int) (model : Model) :
    chatTotalsModelStep acc model =
      (acc.1 + model.total_chats.getD 0,
       acc.2.1 + model.total_chat_copy_events.getD 0,
       acc.2.2 + model.total_chat_insertion_events.getD 0) := by
  rcases model with ⟨nm, ic, cd, eng, langs, tc, tie, tce, tps⟩
  cases tc <;> cases tie <;> cases tce <;> simp [chatTotalsModelStep]

theorem chatTotals_models_fold (models : List Model) :
    ∀ acc : Int × Int × Int,
      models.foldl chatTotalsModelStep acc =
        (acc.1 + (models.map (fun m => m.total_chats.getD 0)).sum,
         acc.2.1 + (models.map (fun m => m.total_chat_copy_events.getD 0)).sum,
         acc.2.2 + (models.map (fun m => m.total_chat_insertion_events.getD 0)).sum) := by
  induction models with
  | nil => intro acc; simp
  | cons m ms ih =>
      intro acc
      rw [List.foldl_cons, chatTotalsModelStep_eq, ih]
      simp [add_assoc]

theorem chatTotalsEditorStep_eq (acc : Int × Int × Int) (editor : Editor) :
    chatTotalsEditorStep acc editor =
      (acc.1 + ((editor.models.getD []).map (fun m => m.total_chats.getD 0)).sum,
       acc.2.1 + ((editor.models.getD []).map (fun m => m.total_chat_copy_events.getD 0)).sum,
       acc.2.2 + ((editor.models.getD []).map (fun m => m.total_chat_insertion_events.getD 0)).sum) := by
  cases he : editor.models with
  | none => simp [chatTotalsEditorStep, he]
  | some models => simp [chatTotalsEditorStep, he, chatTotals_models_fold]

theorem chatTotals_editors_fold (editors : List Editor) :
    ∀ acc : Int × Int × Int,
      editors.foldl chatTotalsEditorStep acc =
        (acc.1 + (editors.map (fun e =>
            ((e.models.getD []).map (fun m => m.total_chats.getD 0)).sum)).sum,
         acc.2.1 + (editors.map (fun e =>
            ((e.models.getD []).map (fun m => m.total_chat_copy_events.getD 0)).sum)).sum,
         acc.2.2 + (editors.map (fun e =>
            ((e.models.getD []).map (fun m => m.total_chat_insertion_events.getD 0)).sum)).sum) := by
  induction editors with
  | nil => intro acc; simp
  | cons e es ih =>
      intro acc
      rw [List.foldl_cons, chatTotalsEditorStep_eq, ih]
      simp [add_assoc]

/-- The code's chat totals equal the spec's nested zero-defaulted sums. -/
theorem calculate_ide_chat_totals_eq_spec (ide_chat : CopilotIdeChat) :
    calculate_ide_chat_totals ide_chat =
      (specChatSum (fun m => m.total_chats) ide_chat,
       specChatSum (fun m => m.total_chat_copy_events) ide_chat,
       specChatSum (fun m => m.total_chat_insertion_events) ide_chat) := by
  cases he : ide_chat.editors with
  | none => simp [calculate_ide_chat_totals, specChatSum, he]
  | some editors =>
      simp [calculate_ide_chat_totals, specChatSum, he, chatTotals_editors_fold]

/-- Scenario B model: a chat model whose only present counter is
`total_chats`. -/
def chatOnlyModel (nm : String) (chats : Int) : Model :=
  { name := nm
    is_custom_model := false
    custom_model_training_date := none
    total_engaged_users := 1
    languages := none
    total_chats := some chats
    total_chat_insertion_events := none
    total_chat_copy_events := none
    total_pr_summaries_created := none }

/-- Scenario B in-editor-chat block: two editors with two models each,
model chat-session counts 137, 298 (editor 1) and 44, 51 (editor 2). -/
def scenarioBChat : CopilotIdeChat :=
  { total_engaged_users := 10
    editors := some
      [{ name := "vscode", total_engaged_users := 6,
         models := some [chatOnlyModel ("gpt-a") 137, chatOnlyModel ("gpt-b") 298] },
       { name := "jetbrains", total_engaged_users := 4,
         models := some [chatOnlyModel ("gpt-a") 44, chatOnlyModel ("gpt-b") 51] }] }

theorem prepare_ide_chat_metrics_p7s1_append (p7 : String) (ide_chat : CopilotIdeChat)
    (ns date : String) (ts : Int) :
    (prepare_ide_chat_metrics (some p7) ide_chat ns date ts).points =
      (prepare_ide_chat_metrics none ide_chat ns date ts).points ++
      [MetricPoint.new (p7 ++ ".copilot_ide_chat.total_chats")
         (calculate_ide_chat_totals ide_chat).1 ts (standard_tags date),
       MetricPoint.new (p7 ++ ".copilot_ide_chat.total_chat_copy_events")
         (calculate_ide_chat_totals ide_chat).2.1 ts (standard_tags date),
       MetricPoint.new (p7 ++ ".copilot_ide_chat.total_chat_insertion_events")
         (calculate_ide_chat_totals ide_chat).2.2 ts (standard_tags date)] := by
  unfold prepare_ide_chat_metrics
  simp [MetricSeries.add_point, List.append_assoc]

/-- C9: with the rollup namespace enabled, the in-editor-chat flattener
emits, after the points it would emit anyway, exactly three aggregate
points whose values are the sums across every editor and every model of
total chats, total chat copy events and total chat insertion events, each
missing per-model value defaulted to zero before summing; and for Scenario
B (model chat counts 137, 298 and 44, 51) the rollup `total_chats` point
equals 530. -/
theorem rollup_emits_chat_totals :
    (∀ (p7 : String) (ide_chat : CopilotIdeChat) (ns date : String) (ts : Int),
      (prepare_ide_chat_metrics (some p7) ide_chat ns date ts).points =
        (prepare_ide_chat_metrics none ide_chat ns date ts).points ++
        [MetricPoint.new (p7 ++ ".copilot_ide_chat.total_chats")
           (specChatSum (fun m => m.total_chats) ide_chat) ts (standard_tags date),
         MetricPoint.new (p7 ++ ".copilot_ide_chat.total_chat_copy_events")
           (specChatSum (fun m => m.total_chat_copy_events) ide_chat) ts (standard_tags date),
         MetricPoint.new (p7 ++ ".copilot_ide_chat.total_chat_insertion_events")
           (specChatSum (fun m => m.total_chat_insertion_events) ide_chat) ts (standard_tags date)]) ∧
    MetricPoint.new ("gh.rollup" ++ ".copilot_ide_chat.total_chats") 530 0
        (standard_tags ("2024-01-01")) ∈
      (prepare_ide_chat_metrics (some ("gh.rollup")) scenarioBChat ("acme.copilot")
        ("2024-01-01") 0).points := by
  constructor
  · intro p7 ide_chat ns date ts
    rw [prepare_ide_chat_metrics_p7s1_append, calculate_ide_chat_totals_eq_spec]
  · decide

end Ghrust






